import Mathlib

/-!
Shallow embedding of the agent4drone-demo control core.

Embedded components (translated from the Python source):
* `src/mission_controller.py` — the priority decision loop
  (`MissionController.run`) and the oracle fallback
  (`MissionController._ask_llm_for_strategy`);
* `src/uav_executor.py` — the reflection-based capability dispatcher
  (`UAVExecutor.execute`);
* `src/context_manager.py` — identity-map name lookup
  (`DroneContextManager.get_id_by_name`);
* `src2/schemas.py` + `src2/tools_registry.py` + `src2/executor.py` —
  the pydantic parameter schemas, the tool registry, and the mission
  executor (`MissionExecutor.execute_plan` / `_execute_single_step`).

Python dicts holding perception data become records with `Option` fields
(a missing key is `none`); numeric values are modelled as rationals `ℚ`;
code that may raise is modelled with explicit outcome types.
-/

namespace Agent4Drone

/-! ## Mission controller (`src/mission_controller.py`) -/

/-- A 3-D coordinate, as in the `{"x":…,"y":…,"z":…}` dicts of the code. -/
structure Coords where
  x : ℚ
  y : ℚ
  z : ℚ
  deriving DecidableEq, Repr

/-- One entry of `status["visual_targets"]`: a dict with keys `pos`, `id`. -/
structure Target where
  id : String
  pos : Coords
  deriving DecidableEq, Repr

/-- The perception snapshot dict returned by `_get_status`.  Keys read by
`MissionController.run` are modelled; `battery` and `position` may be
absent (the code reads them with `status.get(…, default)`). -/
structure Status where
  battery : Option ℚ
  obstacle_detected : Bool
  visual_targets : List Target
  position : Option Coords
  deriving DecidableEq, Repr

/-- `status.get("battery", 100)` — a missing battery key reads as 100. -/
def batteryVal (st : Status) : ℚ :=
  st.battery.getD 100

/-- `status.get("position", {"x": 0, "y": 0, "z": 0})`. -/
def posVal (st : Status) : Coords :=
  st.position.getD ⟨0, 0, 0⟩

/-- Outcome of one oracle interaction before the controller's handling:
either the streamed text accumulated and parsed into coordinates, or an
exception was raised (while streaming — `raw = none` — or while parsing —
`raw = some text`) carrying the exception message. -/
inductive OracleResult where
  | parsed (raw : String) (c : Coords)
  | failure (raw : Option String) (err : String)
  deriving DecidableEq, Repr

/-- The fields of `log_entry` that `_ask_llm_for_strategy` fills in before
`_save_llm_log` persists it (timing fields omitted). -/
structure LogEntry where
  raw_response : Option String
  parsed_output : Option Coords
  success : Bool
  error_message : Option String
  deriving DecidableEq, Repr

/-- `MissionController._ask_llm_for_strategy`: returns the chosen next
coordinates together with the interaction log record.  On any oracle or
parse failure the fallback is the current position (`current_pos`), the
log records `success = false` and the exception message. -/
def askStrategy (currentPos : Coords) (o : OracleResult) : Coords × LogEntry :=
  match o with
  | .parsed raw c => (c, ⟨some raw, some c, true, none⟩)
  | .failure raw e => (currentPos, ⟨raw, none, false, some e⟩)

/-- One call `self.executor.execute(name, params)` made by the decision
loop, with the decision-relevant payload. -/
inductive MCAction where
  | returnHome
  | avoidObstacle (direction : String)
  | moveTo (p : Coords)
  | recordData (targetId : String)
  deriving DecidableEq, Repr

/-- Which branch of the priority chain in `MissionController.run` fired
(each branch prints a distinct message, so the branch is observable). -/
inductive Rule where
  | emptyStatus
  | survival
  | completion
  | obstacle
  | target
  | explore
  deriving DecidableEq, Repr

/-- The observable outcome of one iteration of the `while True` loop in
`MissionController.run`: the executor calls issued, whether the loop
continues (`false` models `break`), the updated `mission_completed`
flag, and the oracle log record when the explore branch ran. -/
structure TickResult where
  actions : List MCAction
  loopContinues : Bool
  completed : Bool
  log : Option LogEntry
  rule : Rule
  deriving DecidableEq, Repr

/-- One iteration of the loop body of `MissionController.run`, lines
46–97: empty status breaks; then battery `< 20` → return home and break;
then the completion flag → return home and break; then obstacle →
`avoid_obstacle` with direction `"right"` and continue; then a non-empty
target list → `move_to` the first target and `record_data`, set the
completion flag, continue; otherwise ask the oracle and `move_to` its
answer (the fallback coordinate dict is always truthy, so the `move_to`
is always issued). -/
def tick (st? : Option Status) (completed : Bool) (o : OracleResult) :
    TickResult :=
  match st? with
  | none => ⟨[], false, completed, none, .emptyStatus⟩
  | some st =>
    if batteryVal st < 20 then
      ⟨[.returnHome], false, completed, none, .survival⟩
    else if completed then
      ⟨[.returnHome], false, completed, none, .completion⟩
    else if st.obstacle_detected then
      ⟨[.avoidObstacle "right"], true, completed, none, .obstacle⟩
    else
      match st.visual_targets with
      | t :: _ => ⟨[.moveTo t.pos, .recordData t.id], true, true, none, .target⟩
      | [] =>
        let r := askStrategy (posVal st) o
        ⟨[.moveTo r.1], true, completed, some r.2, .explore⟩

/-- The `while True` loop of `MissionController.run`, observed on a finite
stream of (snapshot, oracle outcome) pairs: returns every executor call
issued before the loop breaks (or the stream runs out). -/
def runLoop : List (Option Status × OracleResult) → Bool → List MCAction
  | [], _ => []
  | (st?, o) :: rest, completed =>
    let r := tick st? completed o
    r.actions ++ (if r.loopContinues then runLoop rest r.completed else [])

/-! ## Python string primitives

Structural-recursion models of the Python string operations the code
uses (`in`, `.lower()`, `.startswith`), so that concrete instances
evaluate inside the kernel. -/

/-- `pat` is a leading run of `s` (on character lists). -/
def charsLead : List Char → List Char → Bool
  | [], _ => true
  | _ :: _, [] => false
  | a :: as, b :: bs => a = b && charsLead as bs

/-- `pat` occurs somewhere in `s` (on character lists): it leads some
suffix of `s`. -/
def charsContain (pat : List Char) : List Char → Bool
  | [] => charsLead pat []
  | c :: rest => charsLead pat (c :: rest) || charsContain pat rest

/-- Python's substring operator `pat in s` (true for the empty
pattern, as in Python). -/
def strContains (s pat : String) : Bool :=
  charsContain pat.data s.data

/-- Python's `str.lower()`. -/
def strToLower (s : String) : String :=
  ⟨s.data.map Char.toLower⟩

/-- Python's `s.startswith(pat)`. -/
def pyStartsWith (s pat : String) : Bool :=
  charsLead pat.data s.data

/-! ## Capability dispatcher (`src/uav_executor.py`) -/

/-- Key–value parameter dict passed to a capability (`params`).  Values
are modelled as strings or rationals — the shapes the claims exercise. -/
inductive Value where
  | vStr (s : String)
  | vNum (q : ℚ)
  deriving DecidableEq, Repr

/-- A Python keyword-argument dict. -/
abbrev Params := List (String × Value)

/-- Outcome of calling a client method `func(**params)`: a normal return
(the payload, abstracted to a string), a raised `TypeError`, or any other
raised exception, each carrying `str(e)`. -/
inductive PyOutcome where
  | ok (payload : String)
  | typeError (msg : String)
  | exc (msg : String)

/-- An attribute of the `UAVAPIClient` object: a bound method (callable)
or a non-callable attribute (the `not callable(func)` branch). -/
inductive Attr where
  | method (f : Params → PyOutcome)
  | property

/-- The actuation client as the dispatcher sees it: its attribute table
(`hasattr` / `getattr`).  `uav_api_client.py` is an external collaborator
of this core; the dispatcher is verified for every client. -/
structure Client where
  attrs : List (String × Attr)

/-- `hasattr(self.client, fn)` / `getattr(self.client, fn)`. -/
def findAttr : List (String × Attr) → String → Option Attr
  | [], _ => none
  | (n, a) :: rest, fn => if n = fn then some a else findAttr rest fn

/-- The uniform result dict built by `UAVExecutor._format_result`. -/
structure ExecResult where
  success : Bool
  action : String
  data : Option String
  error : Option String
  deriving DecidableEq, Repr

/-- `_format_result(False, action, error=e)`. -/
def failResult (action err : String) : ExecResult :=
  ⟨false, action, none, some err⟩

/-- `UAVExecutor.execute`, lines 33–87: reserved-prefix check first, then
existence (`hasattr`), then callability, then the call inside a fault
boundary that maps `TypeError` to an argument-mismatch error and every
other exception to its message.  Every Python path returns a result dict,
which is why this embedding is a total function into `ExecResult`. -/
def execute (c : Client) (funcName : String) (params : Params) : ExecResult :=
  if pyStartsWith funcName "_" then
    failResult funcName "Access denied to private methods."
  else
    match findAttr c.attrs funcName with
    | none =>
        failResult funcName
          ("Function '" ++ funcName ++ "' not supported by UAV Client.")
    | some .property =>
        failResult funcName ("'" ++ funcName ++ "' is a property, not a function.")
    | some (.method f) =>
        match f params with
        | .ok payload => ⟨true, funcName, some payload, none⟩
        | .typeError m => failResult funcName ("Argument mismatch: " ++ m)
        | .exc m => failResult funcName m

/-- A concrete client with a few methods (two public, one private) and a
non-callable attribute, used to evaluate the dispatcher theorems. -/
def mockClient : Client :=
  ⟨[("take_off", .method fun _ => .ok "taking off"),
    ("get_drone_status", .method fun _ => .ok "status"),
    ("_internal", .method fun _ => .ok "secret"),
    ("base_url", .property)]⟩

/-! ## Identity-map lookup (`src/context_manager.py`) -/

/-- The match condition of `get_id_by_name`:
`name.lower() in name_query.lower()` — the stored drone name, lowercased,
occurring as a substring of the lowercased query. -/
def nameMatches (name query : String) : Bool :=
  strContains (strToLower query) (strToLower name)

/-- `DroneContextManager.get_id_by_name`: walk `drone_map` in iteration
order and return the id of the first entry whose name matches. -/
def get_id_by_name : List (String × String) → String → Option String
  | [], _ => none
  | (name, pid) :: rest, query =>
    if nameMatches name query then some pid else get_id_by_name rest query

/-! ## Parameter schemas (`src2/schemas.py`)

Each pydantic model becomes a validator over a `Params` dict.  Values the
claims exercise are strings, numbers and `None`; numeric-string coercion
is not modelled (no claim passes numbers as strings). -/

/-- A value in a step's `params` dict. -/
inductive PValue where
  | vStr (s : String)
  | vNum (q : ℚ)
  | vNone
  deriving DecidableEq, Repr

/-- A step's `params` dict (`Dict[str, Any]`). -/
abbrev PDict := List (String × PValue)

/-- Dict key lookup. -/
def lookupParam : PDict → String → Option PValue
  | [], _ => none
  | (k, v) :: rest, f => if k = f then some v else lookupParam rest f

/-- A pydantic validation failure, tagged with the offending field. -/
inductive SchemaError where
  | missingField (field : String)
  | wrongType (field : String)
  | boundViolation (field : String)
  deriving DecidableEq, Repr

/-- A required `str` field. -/
def reqStr (p : PDict) (f : String) : Except SchemaError Unit :=
  match lookupParam p f with
  | some (.vStr _) => .ok ()
  | some _ => .error (.wrongType f)
  | none => .error (.missingField f)

/-- A required `float` field. -/
def reqNum (p : PDict) (f : String) : Except SchemaError ℚ :=
  match lookupParam p f with
  | some (.vNum q) => .ok q
  | some _ => .error (.wrongType f)
  | none => .error (.missingField f)

/-- An `Optional[float]` field with default `None`. -/
def optNum (p : PDict) (f : String) : Except SchemaError Unit :=
  match lookupParam p f with
  | some (.vNum _) => .ok ()
  | some .vNone => .ok ()
  | some _ => .error (.wrongType f)
  | none => .ok ()

/-- `DroneBaseParams` (also `LandParams`, `ReturnHomeParams`,
`SetHomeParams`, `TakePhotoParams`, `CalibrateParams`,
`GetNearbyEntitiesParams`): just the required `drone_id`. -/
def validateDroneBaseParams (p : PDict) : Except SchemaError Unit :=
  reqStr p "drone_id"

/-- `TakeOffParams`: `drone_id` plus `altitude: float = Field(10.0, gt=0)`
— optional with default `10.0`, and strictly positive when given. -/
def validateTakeOffParams (p : PDict) : Except SchemaError Unit := do
  reqStr p "drone_id"
  match lookupParam p "altitude" with
  | none => .ok ()
  | some (.vNum q) =>
      if 0 < q then .ok () else .error (.boundViolation "altitude")
  | some _ => .error (.wrongType "altitude")

/-- `MoveToParams`: `drone_id` plus required `x`, `y`, `z`. -/
def validateMoveToParams (p : PDict) : Except SchemaError Unit := do
  reqStr p "drone_id"
  let _ ← reqNum p "x"
  let _ ← reqNum p "y"
  let _ ← reqNum p "z"
  .ok ()

/-- `MoveTowardsParams`: required `distance`, optional `heading`, `dz`. -/
def validateMoveTowardsParams (p : PDict) : Except SchemaError Unit := do
  reqStr p "drone_id"
  let _ ← reqNum p "distance"
  optNum p "heading"
  optNum p "dz"

/-- `ChangeAltitudeParams`: required `altitude` (no bound). -/
def validateChangeAltitudeParams (p : PDict) : Except SchemaError Unit := do
  reqStr p "drone_id"
  let _ ← reqNum p "altitude"
  .ok ()

/-- `RotateParams`: required `heading` with `ge=0, le=360`. -/
def validateRotateParams (p : PDict) : Except SchemaError Unit := do
  reqStr p "drone_id"
  let q ← reqNum p "heading"
  if 0 ≤ q ∧ q ≤ 360 then .ok () else .error (.boundViolation "heading")

/-- `HoverParams`: optional `duration`. -/
def validateHoverParams (p : PDict) : Except SchemaError Unit := do
  reqStr p "drone_id"
  optNum p "duration"

/-- `ChargeParams`: required `charge_amount` with `ge=0, le=100`. -/
def validateChargeParams (p : PDict) : Except SchemaError Unit := do
  reqStr p "drone_id"
  let q ← reqNum p "charge_amount"
  if 0 ≤ q ∧ q ≤ 100 then .ok () else .error (.boundViolation "charge_amount")

/-- `Except` success as a `Bool` (the tool either runs or raises). -/
def okB : Except SchemaError Unit → Bool
  | .ok _ => true
  | .error _ => false

/-! ## Tool registry (`src2/tools_registry.py`) and mission executor
(`src2/executor.py`) -/

/-- One registered LangChain tool: its name and the argument validation
`Tool.run` performs against `args_schema` before invoking the function
(plain `Tool`s — `list_drones`, `get_weather`, `get_task_progress` —
have no schema and accept anything). -/
structure ToolSpec where
  name : String
  validate : PDict → Bool

/-- `UAVToolRegistry.get_all_tools()`: navigation ++ perception ++ system,
in registration order.  Every tool invokes the same-named client method. -/
def registryTools : List ToolSpec :=
  [⟨"take_off", fun p => okB (validateTakeOffParams p)⟩,
   ⟨"land", fun p => okB (validateDroneBaseParams p)⟩,
   ⟨"move_to", fun p => okB (validateMoveToParams p)⟩,
   ⟨"move_towards", fun p => okB (validateMoveTowardsParams p)⟩,
   ⟨"change_altitude", fun p => okB (validateChangeAltitudeParams p)⟩,
   ⟨"rotate", fun p => okB (validateRotateParams p)⟩,
   ⟨"hover", fun p => okB (validateHoverParams p)⟩,
   ⟨"return_home", fun p => okB (validateDroneBaseParams p)⟩,
   ⟨"get_drone_status", fun p => okB (validateDroneBaseParams p)⟩,
   ⟨"get_nearby_entities", fun p => okB (validateDroneBaseParams p)⟩,
   ⟨"list_drones", fun _ => true⟩,
   ⟨"get_weather", fun _ => true⟩,
   ⟨"set_home", fun p => okB (validateDroneBaseParams p)⟩,
   ⟨"calibrate", fun p => okB (validateDroneBaseParams p)⟩,
   ⟨"charge", fun p => okB (validateChargeParams p)⟩,
   ⟨"take_photo", fun p => okB (validateDroneBaseParams p)⟩,
   ⟨"get_task_progress", fun _ => true⟩]

/-- `self.tools_map.get(tool_name)` over the registry's tool dict. -/
def toolsLookup (n : String) : Option ToolSpec :=
  registryTools.find? (fun t => t.name = n)

/-- The actuation surface behind the registry, keyed by capability name:
`.ok s` is the client method's return payload (already JSON-dumped by
`_safe_exec`), `.error e` a raised exception with message `e`. -/
abbrev ClientEnv := String → PDict → Except String String

/-- `UAVToolRegistry._safe_exec`: returns the dumped result, or the
`"Error executing tool: …"` string when the client call raised. -/
def safeExec (env : ClientEnv) (n : String) (p : PDict) : String :=
  match env n p with
  | .ok s => s
  | .error e => "Error executing tool: " ++ e

/-- One step of a `MissionPlan` (`AgentAction` in `src2/schemas.py`). -/
structure AgentAction where
  func : String
  params : PDict
  thought : Option String
  deriving DecidableEq, Repr

/-- An LLM-produced plan (`MissionPlan` in `src2/schemas.py`). -/
structure MissionPlan where
  mission_steps : List AgentAction
  deriving DecidableEq, Repr

/-- `MissionExecutor._execute_single_step`: tool lookup, then `tool.run`
(schema validation — a validation error is an exception caught by the
final `except`, with no client call), then the substring check
`"Error executing tool" in result_str` on the returned string.  Returns
the step's success flag and the client dispatches it caused (by
capability name). -/
def execSingleStep (env : ClientEnv) (a : AgentAction) : Bool × List String :=
  match toolsLookup a.func with
  | none => (false, [])
  | some t =>
    if t.validate a.params then
      let resultStr := safeExec env a.func a.params
      (!(strContains resultStr "Error executing tool"), [a.func])
    else (false, [])

/-- Observable outcome of `MissionExecutor.execute_plan`: the overall
boolean, the steps on which `_execute_single_step` was invoked (in
order), and every dispatch that reached the actuation surface. -/
structure PlanResult where
  success : Bool
  attempted : List AgentAction
  dispatched : List String
  deriving DecidableEq, Repr

/-- The loop body of `execute_plan` over the remaining steps: run each
step in array order, aborting with `False` on the first failing step. -/
def executeSteps (env : ClientEnv) : List AgentAction → PlanResult
  | [] => ⟨true, [], []⟩
  | a :: rest =>
    if (execSingleStep env a).1 then
      let pr := executeSteps env rest
      ⟨pr.success, a :: pr.attempted, (execSingleStep env a).2 ++ pr.dispatched⟩
    else
      ⟨false, [a], (execSingleStep env a).2⟩

/-- `MissionExecutor.execute_plan` (the `step_delay` sleep is pacing
only and carries no observable state). -/
def execute_plan (env : ClientEnv) (plan : MissionPlan) : PlanResult :=
  executeSteps env plan.mission_steps

/-- A step is invalid in the sense of the plan-validation claims: its
capability name is unknown to the registry, or its parameters violate
the tool's schema. -/
def invalidStep (a : AgentAction) : Prop :=
  toolsLookup a.func = none ∨
    ∃ t, toolsLookup a.func = some t ∧ t.validate a.params = false

/-- Per-step success as `execute_plan` observes it. -/
def stepOk (env : ClientEnv) (a : AgentAction) : Bool :=
  (execSingleStep env a).1

/-- All actuation-surface dispatches a list of steps causes when every
step is run. -/
def dispatchedOf (env : ClientEnv) : List AgentAction → List String
  | [] => []
  | a :: rest => (execSingleStep env a).2 ++ dispatchedOf env rest

/-! ## Concrete fixtures used to evaluate the theorems -/

/-- A snapshot with 15 % battery, an obstacle and a target in view. -/
def stLowBattery : Status :=
  ⟨some 15, true, [⟨"t1", ⟨1, 2, 3⟩⟩], some ⟨0, 0, 10⟩⟩

/-- A snapshot with ample battery and an obstacle plus a target. -/
def stObstacle : Status :=
  ⟨some 50, true, [⟨"t1", ⟨1, 2, 3⟩⟩], some ⟨0, 0, 10⟩⟩

/-- A snapshot whose dict has no `battery` key at all. -/
def stNoBattery : Status :=
  ⟨none, true, [], some ⟨0, 0, 10⟩⟩

/-- A quiet snapshot that reaches the exploration branch. -/
def stExplore : Status :=
  ⟨some 80, false, [], some ⟨4, 5, 6⟩⟩

/-- An oracle interaction that parsed successfully. -/
def oracleOk : OracleResult :=
  .parsed "\x7b\x22x\x22: 7\x7d" ⟨7, 8, 9⟩

/-- An actuation surface on which every capability call returns
normally. -/
def envOk : ClientEnv := fun _ _ => .ok "done"

/-- A schema-valid `take_off` step. -/
def goodTakeOff : AgentAction :=
  ⟨"take_off", [("drone_id", .vStr "487bc0b6"), ("altitude", .vNum 10)], none⟩

/-- A schema-valid `land` step. -/
def goodLand : AgentAction :=
  ⟨"land", [("drone_id", .vStr "487bc0b6")], none⟩

/-- A step naming a capability absent from the registry. -/
def badStep : AgentAction :=
  ⟨"destroy_world", [], none⟩

/-- A plan whose first step is valid and whose second step is invalid. -/
def demoPlan : MissionPlan :=
  ⟨[goodTakeOff, badStep]⟩

/-- A plan with two valid steps. -/
def okPlan : MissionPlan :=
  ⟨[goodTakeOff, goodLand]⟩

/-! ## Theorems: the priority decision loop -/

/-- C1: for every snapshot with battery below 20, one loop iteration
emits exactly `return_home` via the survival rule and breaks, regardless
of obstacles, targets or the completion flag; hence on any continuation
of the input stream no further decision is ever issued. -/
theorem survival_rule_dominates (st : Status) (completed : Bool)
    (o : OracleResult) (rest : List (Option Status × OracleResult))
    (hb : batteryVal st < 20) :
    tick (some st) completed o =
      ⟨[.returnHome], false, completed, none, .survival⟩ ∧
    runLoop ((some st, o) :: rest) completed = [.returnHome] := by
  have h1 : tick (some st) completed o =
      ⟨[.returnHome], false, completed, none, .survival⟩ := by
    simp [tick, hb]
  exact ⟨h1, by simp [runLoop, h1]⟩

/-- Witness for C1: a concrete low-battery snapshot that also has an
obstacle, a visible target and the completion flag set still yields only
`return_home`, and a two-element stream issues nothing afterwards. -/
theorem survival_rule_dominates_witness :
    tick (some stLowBattery) true oracleOk =
      ⟨[.returnHome], false, true, none, .survival⟩ ∧
    runLoop [(some stLowBattery, oracleOk), (some stLowBattery, oracleOk)]
      true = [.returnHome] :=
  survival_rule_dominates stLowBattery true oracleOk
    [(some stLowBattery, oracleOk)] (by norm_num [batteryVal, stLowBattery])

/-- C6: with an obstacle detected, battery at least 20 and the completion
flag unset, the iteration emits exactly the lateral avoidance action with
fixed direction `"right"`, keeps looping, and issues no `move_to` toward
any target in that tick. -/
theorem obstacle_avoidance_precedes_target (st : Status) (o : OracleResult)
    (hb : 20 ≤ batteryVal st) (hob : st.obstacle_detected = true) :
    tick (some st) false o =
      ⟨[.avoidObstacle "right"], true, false, none, .obstacle⟩ ∧
    ∀ p, MCAction.moveTo p ∉ (tick (some st) false o).actions := by
  have hnb : ¬ batteryVal st < 20 := not_lt.mpr hb
  have h1 : tick (some st) false o =
      ⟨[.avoidObstacle "right"], true, false, none, .obstacle⟩ := by
    simp [tick, hnb, hob]
  refine ⟨h1, ?_⟩
  intro p
  simp [h1]

/-- Witness for C6: a concrete snapshot with 50 % battery, an obstacle
and a visible target produces only the avoidance action. -/
theorem obstacle_avoidance_precedes_target_witness :
    tick (some stObstacle) false oracleOk =
      ⟨[.avoidObstacle "right"], true, false, none, .obstacle⟩ ∧
    MCAction.moveTo ⟨1, 2, 3⟩ ∉ (tick (some stObstacle) false oracleOk).actions :=
  ⟨(obstacle_avoidance_precedes_target stObstacle oracleOk
      (by norm_num [batteryVal, stObstacle]) rfl).1,
   (obstacle_avoidance_precedes_target stObstacle oracleOk
      (by norm_num [batteryVal, stObstacle]) rfl).2 ⟨1, 2, 3⟩⟩

/-- C10: a snapshot with no `battery` key reads as battery 100, so the
survival rule never fires on it, whatever the completion flag and the
oracle outcome. -/
theorem missing_battery_defaults_full (st : Status) (completed : Bool)
    (o : OracleResult) (hb : st.battery = none) :
    batteryVal st = 100 ∧ (tick (some st) completed o).rule ≠ .survival := by
  have h100 : batteryVal st = 100 := by simp [batteryVal, hb]
  refine ⟨h100, ?_⟩
  have hnb : ¬ batteryVal st < 20 := by rw [h100]; norm_num
  cases hc : completed <;> cases hob : st.obstacle_detected <;>
    cases ht : st.visual_targets <;>
      simp [tick, hnb, hc, hob, ht]

/-- Witness for C10: a concrete battery-less snapshot, with the
completion flag set, fires a non-survival rule. -/
theorem missing_battery_defaults_full_witness :
    batteryVal stNoBattery = 100 ∧
    (tick (some stNoBattery) true oracleOk).rule ≠ .survival :=
  missing_battery_defaults_full stNoBattery true oracleOk rfl

/-- C5: when the exploration branch runs and the oracle interaction
fails (unparseable output or a failed call, message `e ≠ ""`), the tick
emits a `move_to` whose target is exactly the current position, the
interaction log records `success = false` with the non-empty message,
and the loop continues. -/
theorem oracle_failure_fallback_no_movement (st : Status)
    (raw : Option String) (e : String) (hb : ¬ batteryVal st < 20)
    (hob : st.obstacle_detected = false) (ht : st.visual_targets = [])
    (he : e ≠ "") :
    tick (some st) false (.failure raw e) =
      ⟨[.moveTo (posVal st)], true, false, some ⟨raw, none, false, some e⟩,
        .explore⟩ ∧
    ∃ l, (tick (some st) false (.failure raw e)).log = some l ∧
      l.success = false ∧ ∃ m, l.error_message = some m ∧ m ≠ "" := by
  have h1 : tick (some st) false (.failure raw e) =
      ⟨[.moveTo (posVal st)], true, false, some ⟨raw, none, false, some e⟩,
        .explore⟩ := by
    simp [tick, hb, hob, ht, askStrategy]
  exact ⟨h1, ⟨raw, none, false, some e⟩, by simp [h1], rfl, e, rfl, he⟩

/-- Witness for C5: a concrete quiet snapshot at position (4, 5, 6) with
a concrete parse failure stays at (4, 5, 6) and logs the failure. -/
theorem oracle_failure_fallback_no_movement_witness :
    tick (some stExplore) false (.failure (some "garbage") "Invalid json output") =
      ⟨[.moveTo ⟨4, 5, 6⟩], true, false,
        some ⟨some "garbage", none, false, some "Invalid json output"⟩,
        .explore⟩ ∧
    ∃ l, (tick (some stExplore) false
        (.failure (some "garbage") "Invalid json output")).log = some l ∧
      l.success = false ∧ ∃ m, l.error_message = some m ∧ m ≠ "" :=
  oracle_failure_fallback_no_movement stExplore (some "garbage")
    "Invalid json output" (by norm_num [batteryVal, stExplore]) rfl rfl
    (by decide)

/-! ## Theorems: the capability dispatcher -/

/-- Every call to `execute` returns a result dict echoing the requested
action — there is no input on which the dispatcher fails to produce an
`ExecResult` value (all client-raised exceptions are mapped to failed
results by the fault boundary). -/
lemma execute_action_eq (c : Client) (g : String) (q : Params) :
    (execute c g q).action = g := by
  unfold execute
  split
  · rfl
  · split
    · rfl
    · rfl
    · split <;> rfl

/-- C2: dispatching a name the client does not expose (and that does not
carry the reserved prefix, so it reaches the lookup) yields a failed
result whose error names the unknown capability; and for every input
name and parameter map the dispatcher returns a result value rather than
letting an exception escape (its embedding is a total function whose
result always echoes the action). -/
theorem dispatch_unknown_capability_fails (c : Client) (funcName : String)
    (params : Params) (hattr : findAttr c.attrs funcName = none)
    (hpub : pyStartsWith funcName "_" = false) :
    execute c funcName params =
      failResult funcName
        ("Function '" ++ funcName ++ "' not supported by UAV Client.") ∧
    (execute c funcName params).success = false ∧
    ∀ g q, (execute c g q).action = g := by
  have h1 : execute c funcName params =
      failResult funcName
        ("Function '" ++ funcName ++ "' not supported by UAV Client.") := by
    simp [execute, hattr, Bool.not_eq_true, hpub]
  exact ⟨h1, by simp [h1, failResult], fun g q => execute_action_eq c g q⟩

/-- Witness for C2: `"destroy_world"` against the concrete mock client. -/
theorem dispatch_unknown_capability_fails_witness :
    execute mockClient "destroy_world" [] =
      failResult "destroy_world"
        "Function 'destroy_world' not supported by UAV Client." ∧
    (execute mockClient "destroy_world" []).success = false ∧
    (execute mockClient "land" []).action = "land" :=
  ⟨(dispatch_unknown_capability_fails mockClient "destroy_world" [] rfl rfl).1,
   (dispatch_unknown_capability_fails mockClient "destroy_world" [] rfl rfl).2.1,
   (dispatch_unknown_capability_fails mockClient "destroy_world" [] rfl rfl).2.2
     "land" []⟩

/-- C7: any name carrying the reserved `"_"` prefix is rejected as
access-denied before the existence check, so the result is the same
whether or not the client has such a method. -/
theorem reserved_prefix_access_denied (c : Client) (funcName : String)
    (params : Params) (h : pyStartsWith funcName "_" = true) :
    execute c funcName params =
      failResult funcName "Access denied to private methods." := by
  simp [execute, h]

/-- Witness for C7: `"_internal"` exists as a method on the mock client
and is still rejected as access-denied. -/
theorem reserved_prefix_access_denied_witness :
    (findAttr mockClient.attrs "_internal").isSome = true ∧
    execute mockClient "_internal" [] =
      failResult "_internal" "Access denied to private methods." :=
  ⟨rfl, reserved_prefix_access_denied mockClient "_internal" [] rfl⟩

/-! ## Theorems: identity-map lookup -/

/-- C8 counterexample: the map entry `"Drone 1"` contains the query
`"Drone"` (case-insensitively), so under the claim's matching direction
— "some match containing the query" — the lookup should return its id;
the code instead tests whether the stored name is a substring of the
query, finds no match, and signals failure. -/
theorem identity_lookup_direction_counterexample :
    strContains (strToLower "Drone 1") (strToLower "Drone") = true ∧
    get_id_by_name [("Drone 1", "id-1")] "Drone" = none := by
  exact ⟨rfl, rfl⟩

/-- C8 (amended): lookup walks the map in iteration order and returns
the id of the first entry whose lowercased *name occurs as a substring
of the lowercased query* (the reverse containment direction from the
claim), and `none` exactly when no entry matches in that sense. -/
theorem identity_lookup_first_match (m : List (String × String))
    (q : String) :
    get_id_by_name m q =
      (m.find? (fun p => nameMatches p.1 q)).map Prod.snd := by
  induction m with
  | nil => rfl
  | cons hd tl ih =>
    obtain ⟨n, pid⟩ := hd
    by_cases h : nameMatches n q
    · simp [get_id_by_name, List.find?, h]
    · simp [get_id_by_name, List.find?, h, ih]

/-! ## Theorems: parameter schema validation -/

/-- C9: validating a `take_off` step with altitude −5 fails with the
`gt 0` bound violation on `altitude`, altitude 10 validates, and in
general (with a well-typed `drone_id` present) validation succeeds
exactly when the supplied altitude is strictly positive. -/
theorem take_off_altitude_bound_validation :
    validateTakeOffParams
        [("drone_id", .vStr "x"), ("altitude", .vNum (-5))] =
      .error (.boundViolation "altitude") ∧
    validateTakeOffParams
        [("drone_id", .vStr "x"), ("altitude", .vNum 10)] = .ok () ∧
    ∀ q : ℚ,
      (validateTakeOffParams
          [("drone_id", .vStr "x"), ("altitude", .vNum q)] = .ok () ↔
        0 < q) := by
  refine ⟨rfl, rfl, ?_⟩
  intro q
  by_cases h : 0 < q
  · simp [validateTakeOffParams, reqStr, lookupParam, h, Bind.bind, Except.bind]
  · simp [validateTakeOffParams, reqStr, lookupParam, h, Bind.bind, Except.bind]

/-! ## Theorems: the mission executor -/

/-- An invalid step never reaches the actuation surface: the lookup or
the schema validation fails before any client call, so the step reports
failure and dispatches nothing. -/
lemma execSingleStep_invalid (env : ClientEnv) (a : AgentAction)
    (h : invalidStep a) : execSingleStep env a = (false, []) := by
  unfold execSingleStep
  rcases h with h | ⟨t, ht, hv⟩
  · rw [h]
  · rw [ht]
    simp [hv]

/-- When every step of a list succeeds, `executeSteps` runs them all in
order and reports success. -/
lemma executeSteps_all_ok (env : ClientEnv) (l : List AgentAction)
    (h : ∀ a ∈ l, stepOk env a = true) :
    executeSteps env l = ⟨true, l, dispatchedOf env l⟩ := by
  induction l with
  | nil => rfl
  | cons a rest ih =>
    have ha : (execSingleStep env a).1 = true := h a (by simp)
    have hrest := ih (fun b hb => h b (by simp [hb]))
    simp [executeSteps, ha, hrest, dispatchedOf]

/-- When every step before `bad` succeeds and `bad` fails,
`executeSteps` stops at `bad`, reports failure, and the steps after
`bad` are never attempted. -/
lemma executeSteps_abort (env : ClientEnv) (pre : List AgentAction)
    (bad : AgentAction) (post : List AgentAction)
    (hpre : ∀ a ∈ pre, stepOk env a = true)
    (hbad : stepOk env bad = false) :
    executeSteps env (pre ++ bad :: post) =
      ⟨false, pre ++ [bad], dispatchedOf env pre ++ (execSingleStep env bad).2⟩ := by
  induction pre with
  | nil =>
    have hb : (execSingleStep env bad).1 = false := hbad
    simp [executeSteps, hb, dispatchedOf]
  | cons a rest ih =>
    have ha : (execSingleStep env a).1 = true := hpre a (by simp)
    have hrest := ih (fun b hb => hpre b (by simp [hb]))
    simp [executeSteps, ha, hrest, dispatchedOf]

/-- The attempted steps are always an initial segment of the plan. -/
lemma executeSteps_attempted_initial (env : ClientEnv)
    (l : List AgentAction) :
    ∃ rest, l = (executeSteps env l).attempted ++ rest := by
  induction l with
  | nil => exact ⟨[], rfl⟩
  | cons a tail ih =>
    by_cases ha : (execSingleStep env a).1 = true
    · obtain ⟨r, hr⟩ := ih
      exact ⟨r, by simp [executeSteps, ha]; exact hr⟩
    · rw [Bool.not_eq_true] at ha
      exact ⟨tail, by simp [executeSteps, ha]⟩

/-- C4: the mission executor attempts steps strictly in array order (the
attempted steps are an initial segment of the plan); if every step
succeeds it returns `True` having run them all; and on a first failing
step it aborts immediately with `False`, attempting none of the
remaining steps. -/
theorem execute_plan_order_and_abort (env : ClientEnv)
    (plan : MissionPlan) :
    (∃ rest, plan.mission_steps = (execute_plan env plan).attempted ++ rest) ∧
    ((∀ a ∈ plan.mission_steps, stepOk env a = true) →
      execute_plan env plan =
        ⟨true, plan.mission_steps, dispatchedOf env plan.mission_steps⟩) ∧
    (∀ pre bad post, plan.mission_steps = pre ++ bad :: post →
      (∀ a ∈ pre, stepOk env a = true) → stepOk env bad = false →
      execute_plan env plan =
        ⟨false, pre ++ [bad],
          dispatchedOf env pre ++ (execSingleStep env bad).2⟩) := by
  refine ⟨executeSteps_attempted_initial env plan.mission_steps,
          fun h => executeSteps_all_ok env plan.mission_steps h,
          fun pre bad post hsplit hpre hbad => ?_⟩
  show executeSteps env plan.mission_steps = _
  rw [hsplit]
  exact executeSteps_abort env pre bad post hpre hbad

/-- Witness for C4: a concrete two-step plan on an all-ok actuation
surface runs both steps in order and returns `True`. -/
theorem execute_plan_order_and_abort_witness :
    execute_plan envOk okPlan =
      ⟨true, [goodTakeOff, goodLand], ["take_off", "land"]⟩ :=
  (execute_plan_order_and_abort envOk okPlan).2.1 (by decide)

/-- C3 counterexample: `demoPlan` contains an invalid step
(`destroy_world` is not in the registry), yet its preceding valid step
*is* dispatched to the actuation surface — the plan is not rejected
before execution as the claim states. -/
theorem plan_prevalidation_counterexample :
    invalidStep badStep ∧
    (execute_plan envOk demoPlan).dispatched = ["take_off"] ∧
    (execute_plan envOk demoPlan).dispatched ≠ [] :=
  ⟨Or.inl rfl, rfl, by decide⟩

/-- C3 (amended): a plan containing an invalid step is aborted *at* the
first invalid step with overall result `False`: the invalid step itself
and every later step are never dispatched to the actuation surface, but
the valid steps preceding it have already been dispatched when the abort
happens (there is no whole-plan pre-validation). -/
theorem plan_aborts_at_first_invalid_step (env : ClientEnv)
    (pre post : List AgentAction) (bad : AgentAction)
    (hpre : ∀ a ∈ pre, stepOk env a = true) (hbad : invalidStep bad) :
    execute_plan env ⟨pre ++ bad :: post⟩ =
      ⟨false, pre ++ [bad], dispatchedOf env pre⟩ := by
  have hinv := execSingleStep_invalid env bad hbad
  have hbad' : stepOk env bad = false := by simp [stepOk, hinv]
  have h := executeSteps_abort env pre bad post hpre hbad'
  show executeSteps env (pre ++ bad :: post) = _
  rw [h, hinv]
  simp

/-- Witness for C3 (amended): the concrete `demoPlan` aborts at
`destroy_world` having already dispatched `take_off`. -/
theorem plan_aborts_at_first_invalid_step_witness :
    execute_plan envOk demoPlan =
      ⟨false, [goodTakeOff, badStep], ["take_off"]⟩ :=
  plan_aborts_at_first_invalid_step envOk [goodTakeOff] [] badStep
    (by decide) (Or.inl rfl)

end Agent4Drone
